import Mathlib

/-!
A shallow embedding of the retrieval subsystem of `rag_system.py` (class
`RAGSystem`) from the lcb-backend repository, together with the rebuild glue
of `app.py`.  Pure pieces of the Python code (loading, summary generation,
document decomposition, de-duplication, context assembly) are translated
directly; the two external capabilities the code delegates to — the Gemini
embedding model and langchain/Chroma (the recursive text splitter, the MMR
retriever and the persistent vector store) — are not code of this repository
and are modelled from the specification where a claim needs them; each such
definition carries a doc comment starting `Modelled from the spec:`.
-/

namespace RagSys

/-- ASCII whitespace as Python's `str.strip()` removes it. -/
def isPySpace (c : Char) : Bool :=
  c == ' ' || c == '\t' || c == '\n' || c == '\r' || c == '\x0b' || c == '\x0c'

/-- Python `str.strip()` on a character list: drop leading whitespace, then
trailing whitespace. -/
def stripChars (l : List Char) : List Char :=
  ((l.dropWhile isPySpace).reverse.dropWhile isPySpace).reverse

/-- Python `str.strip()` (source lines 188–189 use it on FAQ fields). -/
def pyStrip (s : String) : String :=
  String.mk (stripChars s.data)

/-- A document's `type` tag together with its type-specific metadata
(`crop` for products, the 1-based `id` for FAQs) — the `metadata` dicts
built at source lines 150, 163, 183 and 196. -/
inductive RagMeta where
  | brandOverview
  | mechanism
  | product (crop : String)
  | faq (id : Nat)
deriving DecidableEq, Repr

/-- `langchain.schema.Document`: page content plus metadata. -/
structure RagDoc where
  page_content : String
  metadata : RagMeta
deriving DecidableEq, Repr

/-- The `brand` object of `brand_data.json`.  String keys the code reads
with `dict.get` and an explicit default are `Option String` (`none` =
absent key); the two list-valued keys are plain lists with `[]` for an
absent key, which the code's truthiness tests (`if brand.get("benefits")`)
cannot distinguish from an empty list. -/
structure Brand where
  name : Option String
  tagline : Option String
  description : Option String
  benefits : List String
  purchase_links : List String
deriving DecidableEq, Repr

/-- One entry of `products` (source lines 167–170). -/
structure Product where
  crop : Option String
  applications : List String
  mechanism : String
deriving DecidableEq, Repr

/-- The `mechanism` object; an absent or empty `microbes` key is `[]`. -/
structure Mechanism where
  microbes : List String
deriving DecidableEq, Repr

/-- One entry of `faqs`; `q`/`a` read via `faq.get("q", "")`. -/
structure FaqEntry where
  q : Option String
  a : Option String
deriving DecidableEq, Repr

/-- A parsed `brand_data.json` before `load_brand_data` applies its
defaults: `none` marks an absent top-level key. -/
structure RawData where
  brand : Option Brand
  products : Option (List Product)
  faqs : Option (List FaqEntry)
  mechanism : Option Mechanism
deriving DecidableEq, Repr

/-- The knowledge record after `load_brand_data`'s `setdefault` calls. -/
structure BrandData where
  brand : Brand
  products : List Product
  faqs : List FaqEntry
  mechanism : Mechanism
deriving DecidableEq, Repr

/-- The loader's failure modes: `FileNotFoundError` (source line 68) and
`ValueError` for a missing brand name (source line 75). -/
inductive LoadError where
  | sourceNotFound
  | malformedKnowledge
deriving DecidableEq, Repr

/-- `RAGSystem.load_brand_data` (source lines 61–80).  The file system read
is modelled by the `Option RawData` argument: `none` is an absent source. -/
def load_brand_data (source : Option RawData) : Except LoadError BrandData :=
  match source with
  | none => .error .sourceNotFound
  | some data =>
    match data.brand with
    | none => .error .malformedKnowledge
    | some b =>
      match b.name with
      | none => .error .malformedKnowledge
      | some _ =>
        .ok { brand := b
              products := data.products.getD []
              faqs := data.faqs.getD []
              mechanism := data.mechanism.getD { microbes := [] } }

/-- `RAGSystem._generate_summary_text` (source lines 84–113). -/
def generateSummaryText (data : BrandData) : String :=
  let brand := data.brand
  let tagline := brand.tagline.getD ""
  let desc := brand.description.getD ""
  let products := data.products
  let cropList :=
    String.intercalate ", " ((products.take 12).map (fun p => p.crop.getD "N/A"))
      ++ (if products.length > 12 then ", ..." else "")
  let parts :=
    ["Brand Knowledge Base for: " ++ brand.name.getD "Unknown Brand"]
    ++ (if tagline ≠ "" then ["Tagline: " ++ tagline] else [])
    ++ (if desc ≠ "" then ["Description: " ++ desc] else [])
    ++ ["Total product/crop entries: " ++ toString products.length]
    ++ (if products ≠ [] then ["Crops/segments covered: " ++ cropList] else [])
    ++ (if brand.benefits ≠ [] then
          "Key Benefits:" :: (brand.benefits.take 8).map (fun b => "- " ++ b)
        else [])
  String.intercalate "\n" parts

/-- Modelled from the spec: long-text splitting is delegated to langchain's
`RecursiveCharacterTextSplitter(chunk_size=1000, chunk_overlap=150)`, whose
code is not part of this repository.  Spec §4.2 describes it as producing
overlapping sub-chunks bounded by the 1000-character threshold with ~150
characters of overlap, "before falling back to raw length"; that raw-length
fallback is what is modelled: windows of 1000 characters advancing by 850
(so consecutive chunks share 150 characters). -/
def chunkFrom (l : List Char) : List (List Char) :=
  if _h : l.length ≤ 1000 then [l]
  else l.take 1000 :: chunkFrom (l.drop 850)
termination_by l.length
decreasing_by simp only [List.length_drop]; omega

/-- The modelled `text_splitter.split_text` (see `chunkFrom`). -/
def splitText (s : String) : List String :=
  (chunkFrom s.data).map String.mk

/-- `RAGSystem._maybe_split` (source lines 117–121). -/
def maybeSplit (s : String) : List String :=
  if s = "" then []
  else if s.length ≤ 1000 then [s]
  else splitText s

/-- The brand-overview text (source lines 134–149); the join drops empty
lines (`if l`). -/
def overviewText (brand : Brand) : String :=
  let overview_lines :=
    ["Brand: " ++ brand.name.getD "N/A",
     "Tagline: " ++ brand.tagline.getD "N/A",
     "Description: " ++ brand.description.getD "N/A"]
    ++ (if brand.benefits ≠ [] then
          "Benefits:" :: brand.benefits.map (fun b => "- " ++ b)
        else [])
    ++ (if brand.purchase_links ≠ [] then
          "Purchase Links:" :: brand.purchase_links.map (fun u => "- " ++ u)
        else [])
  String.intercalate "\n" (overview_lines.filter (fun l => l != ""))

/-- Mechanism documents (source lines 154–164). -/
def mechanismDocs (mech : Mechanism) : List RagDoc :=
  let mech_lines :=
    if mech.microbes ≠ [] then
      "Microbial Mechanism & Functions:" :: mech.microbes.map (fun m => "- " ++ m)
    else []
  if mech_lines ≠ [] then
    (maybeSplit (String.intercalate "\n" mech_lines)).map
      (fun chunk => { page_content := chunk, metadata := .mechanism })
  else []

/-- Product documents (source lines 167–184). -/
def productDocs (prod : Product) : List RagDoc :=
  let crop := prod.crop.getD "N/A"
  let base :=
    ["Crop/Product: " ++ crop]
    ++ (if prod.applications ≠ [] then
          "Applications:" :: prod.applications.map (fun a => "- " ++ a)
        else [])
    ++ (if prod.mechanism ≠ "" then ["Mechanism: " ++ prod.mechanism] else [])
  (maybeSplit (String.intercalate "\n" base)).map
    (fun chunk => { page_content := chunk, metadata := .product crop })

/-- The body of the FAQ loop at source lines 187–197 for the entry carrying
1-based index `idx`: strip both fields, skip if both are empty, otherwise
emit the `Q: …\nA: …` document(s). -/
def faqDocsForOne (idx : Nat) (faq : FaqEntry) : List RagDoc :=
  if pyStrip (faq.q.getD "") = "" ∧ pyStrip (faq.a.getD "") = "" then []
  else
    (maybeSplit ("Q: " ++ pyStrip (faq.q.getD "") ++ "\nA: " ++ pyStrip (faq.a.getD ""))).map
      (fun chunk => { page_content := chunk, metadata := .faq idx })

/-- The FAQ loop, `enumerate(data.get("faqs", []), start=idx)`. -/
def faqDocsAux (idx : Nat) : List FaqEntry → List RagDoc
  | [] => []
  | f :: fs => faqDocsForOne idx f ++ faqDocsAux (idx + 1) fs

/-- All FAQ documents (`enumerate` starts at 1). -/
def faqDocs (faqs : List FaqEntry) : List RagDoc :=
  faqDocsAux 1 faqs

/-- `RAGSystem._create_documents_from_brand` (source lines 123–199).  Note
the brand-overview document is appended directly, without `_maybe_split`
(source lines 148–151). -/
def createDocumentsFromBrand (data : BrandData) : List RagDoc :=
  [{ page_content := overviewText data.brand, metadata := .brandOverview }]
  ++ mechanismDocs data.mechanism
  ++ (data.products.map productDocs).flatten
  ++ faqDocs data.faqs

/-- Modelled from the spec: the persistent Chroma store
(`chromadb.PersistentClient`) is external to the repository.  Spec §6 gives
its contract — `upsert(collection, [(vector, text, metadata)])` — and §9
records that "the source does not explicitly delete prior collection
contents", so `Chroma.from_documents` is modelled as appending the
documents to the named collection, creating it when absent.  Embedding
vectors play no role in the claims and are omitted. -/
abbrev ChromaStore := List (String × List RagDoc)

/-- `Chroma.from_documents(documents, collection_name, client)` on the
persistent store (see the `ChromaStore` comment). -/
def chromaFromDocuments (store : ChromaStore) (collection : String)
    (docs : List RagDoc) : ChromaStore :=
  match store with
  | [] => [(collection, docs)]
  | (c, ds) :: rest =>
    if c = collection then (c, ds ++ docs) :: rest
    else (c, ds) :: chromaFromDocuments rest collection docs

/-- The documents queryable in a named collection of the store. -/
def queryableDocs (store : ChromaStore) (collection : String) : List RagDoc :=
  match store with
  | [] => []
  | (c, ds) :: rest => if c = collection then ds else queryableDocs rest collection

/-- The mutable fields `RAGSystem.__init__` creates (source lines 48–51);
the API key and client handles carry no claim-relevant state.
`vectorstore` holds the collection name of the handle returned by
`Chroma.from_documents`, `none` before any successful build. -/
structure RAGState where
  collection_name : String
  vectorstore : Option String
  profile_summary : String
  data_cache : Option BrandData
deriving DecidableEq, Repr

/-- A fresh `RAGSystem(api_key, collection_name)`. -/
def initState (collection_name : String) : RAGState :=
  { collection_name := collection_name, vectorstore := none,
    profile_summary := "", data_cache := none }

/-- `RAGSystem.build_vectorstore` (source lines 203–224): load the record,
cache the summary, decompose, hand the documents to the store. -/
def build_vectorstore (st : RAGState) (store : ChromaStore)
    (source : Option RawData) : Except LoadError (RAGState × ChromaStore) :=
  match load_brand_data source with
  | .error e => .error e
  | .ok data =>
    .ok ({ st with vectorstore := some st.collection_name,
                   profile_summary := generateSummaryText data,
                   data_cache := some data },
         chromaFromDocuments store st.collection_name (createDocumentsFromBrand data))

/-- `RAGSystem.get_summary_document` (source lines 228–230): returns the
cached text as is; it reads no source and touches no other field. -/
def getSummaryDocument (st : RAGState) : String :=
  st.profile_summary

/-- The one failure `search_relevant_context` raises itself
(`ValueError("Vector database not built...")`, source line 237). -/
inductive SearchError where
  | indexNotBuilt
deriving DecidableEq, Repr

/-- The de-duplication loop of `search_relevant_context` (source lines
246–251); `seen` is the Python set, modelled as the list of texts kept so
far. -/
def dedupFirstAux (seen : List String) : List RagDoc → List RagDoc
  | [] => []
  | d :: ds =>
    if d.page_content ∈ seen then dedupFirstAux seen ds
    else d :: dedupFirstAux (d.page_content :: seen) ds

/-- De-duplicate by `page_content`, keeping first occurrences. -/
def dedupFirst (docs : List RagDoc) : List RagDoc :=
  dedupFirstAux [] docs

/-- The assembly loop (source lines 254–256): 1-based labels. -/
def ctxParts (i : Nat) : List RagDoc → List String
  | [] => []
  | d :: ds =>
    ("Relevant Information " ++ toString i ++ ":\n" ++ d.page_content)
      :: ctxParts (i + 1) ds

/-- `"\n\n".join(ctx_parts)` (source line 257). -/
def assembleContext (docs : List RagDoc) : String :=
  String.intercalate "\n\n" (ctxParts 1 docs)

/-- `RAGSystem.search_relevant_context` (source lines 232–257).  The MMR
selection (`as_retriever(search_type="mmr", {k, fetch_k: 25, lambda_mult:
0.25})`) runs inside the external vector store; its result enters as
`mmrDocs`.  `query` and `k` are kept for fidelity to the signature. -/
def search_relevant_context (st : RAGState) (query : String) (k : Nat)
    (mmrDocs : List RagDoc) : Except SearchError String :=
  match st.vectorstore with
  | none => .error .indexNotBuilt
  | some _ =>
    let _ := query
    let _ := k
    .ok (assembleContext (dedupFirst mmrDocs))

/-- The state component of a build result (`initState ""` in the error case,
which no lemma relies on). -/
def stateOf (r : Except LoadError (RAGState × ChromaStore)) : RAGState :=
  match r with
  | .ok (st, _) => st
  | .error _ => initState ""

/-- The store component of a build result. -/
def storeOf (r : Except LoadError (RAGState × ChromaStore)) : ChromaStore :=
  match r with
  | .ok (_, s) => s
  | .error _ => []

/-- Whether a build succeeded. -/
def buildOk (r : Except LoadError (RAGState × ChromaStore)) : Bool :=
  match r with
  | .ok _ => true
  | .error _ => false

/-- A state as it looks right after a successful build: concrete input for
the query-time theorems. -/
def builtState : RAGState :=
  { collection_name := "brand_kb", vectorstore := some "brand_kb",
    profile_summary := "", data_cache := none }

/-- A minimal brand object with only a name. -/
def brandB : Brand :=
  { name := some "B", tagline := none, description := none,
    benefits := [], purchase_links := [] }

/-- A brand object whose required `name` key is missing. -/
def brandNoName : Brand :=
  { name := none, tagline := none, description := none,
    benefits := [], purchase_links := [] }

/-- A source whose brand lacks the required name. -/
def kbNoName : RawData :=
  { brand := some brandNoName, products := none, faqs := none, mechanism := none }

/-- A source with only a brand name: every optional container absent. -/
def kbBare : RawData :=
  { brand := some brandB, products := none, faqs := none, mechanism := none }

/-- A first knowledge source: one FAQ, nothing else. -/
def kbOld : RawData :=
  { brand := some brandB, products := none,
    faqs := some [{ q := some "old?", a := some "old." }],
    mechanism := none }

/-- A second knowledge source with a different FAQ, for rebuild scenarios. -/
def kbNew : RawData :=
  { brand := some brandB, products := none,
    faqs := some [{ q := some "new?", a := some "new." }],
    mechanism := none }

/-- A concrete MMR result with an exact duplicate text, for evaluating the
de-duplication theorems. -/
def mmrSample : List RagDoc :=
  [{ page_content := "t1", metadata := .faq 1 },
   { page_content := "t2", metadata := .faq 2 },
   { page_content := "t1", metadata := .faq 3 }]

/-- An FAQ list whose first entry is empty (skipped) and whose second is
kept, so the kept entry's id is 2 and no document carries id 1. -/
def faqsWithSkip : List FaqEntry :=
  [{ q := some "", a := some "" }, { q := some "X", a := some "Y" }]

/-- A 1001-character description, past the 1000-character split threshold. -/
def bigDesc : String := String.mk (List.replicate 1001 'a')

/-- A knowledge record whose brand-overview text exceeds 1000 characters. -/
def bigData : BrandData :=
  { brand := { name := some "B", tagline := none, description := some bigDesc,
               benefits := [], purchase_links := [] },
    products := [], faqs := [], mechanism := { microbes := [] } }

/-! ## Theorems -/

/-- Claim C1 (corrected): when the MMR selection yields zero documents,
`search_relevant_context` on a built index returns the empty string — it
joins an empty list of context parts and produces no "no information"
marker. -/
theorem c1_empty_selection_empty_string :
    ∀ (st : RAGState) (query : String) (k : Nat),
    st.vectorstore.isSome = true →
    search_relevant_context st query k [] = .ok "" := by
  intro st query k h
  obtain ⟨v, hv⟩ := Option.isSome_iff_exists.mp h
  simp only [search_relevant_context, hv]
  rfl

/-- Claim C1, counterexample to the claim as stated: on a built index and an
empty MMR selection, search returns the empty string, not a marker. -/
theorem c1_counterexample :
    search_relevant_context builtState "refund policy" 5 [] = .ok "" := rfl

/-- Claim C1, witness: the amended theorem evaluated at a concrete built
state. -/
theorem c1_witness :
    builtState.vectorstore.isSome = true
    ∧ search_relevant_context builtState "refund policy" 5 [] = .ok "" :=
  ⟨rfl, c1_empty_selection_empty_string builtState "refund policy" 5 rfl⟩

/-- Claim C5 (confirmed): an FAQ whose question and answer are both empty
(whether the keys hold `""` or are absent) contributes no document and the
loop moves on; an FAQ with `q="X"`, `a="Y"` yields exactly one `faq`
document whose text is exactly `"Q: X\nA: Y"`. -/
theorem c5_faq_roundtrip :
    ∀ (i : Nat) (rest : List FaqEntry),
    faqDocsAux i ({ q := some "", a := some "" } :: rest) = faqDocsAux (i + 1) rest
    ∧ faqDocsAux i ({ q := none, a := none } :: rest) = faqDocsAux (i + 1) rest
    ∧ faqDocs [{ q := some "X", a := some "Y" }] =
        [{ page_content := "Q: X\nA: Y", metadata := RagMeta.faq 1 }] := by
  intro i rest
  refine ⟨?_, ?_, by decide⟩
  · simp [faqDocsAux,
      show faqDocsForOne i { q := some "", a := some "" } = [] from rfl]
  · simp [faqDocsAux,
      show faqDocsForOne i { q := none, a := none } = [] from rfl]

/-- Claim C5, witness: the emission equations evaluated at index 1. -/
theorem c5_witness :
    faqDocsAux 1 [{ q := some "", a := some "" }] = faqDocsAux 2 []
    ∧ faqDocs [{ q := some "X", a := some "Y" }] =
        [{ page_content := "Q: X\nA: Y", metadata := RagMeta.faq 1 }] :=
  ⟨(c5_faq_roundtrip 1 []).1, (c5_faq_roundtrip 1 []).2.2⟩

/-- Claim C6 (confirmed): `load_brand_data` fails with `sourceNotFound` on
an absent source, fails with `malformedKnowledge` when the `brand` object
or its `name` key is missing, and otherwise succeeds with `products`,
`faqs` and `mechanism` defaulted to empty containers (the result type has
no optional fields, so none of them can be null). -/
theorem c6_load_validation :
    ∀ (d : RawData) (b : Brand) (n : String),
    load_brand_data none = .error .sourceNotFound
    ∧ (d.brand = none → load_brand_data (some d) = .error .malformedKnowledge)
    ∧ (d.brand = some b → b.name = none →
        load_brand_data (some d) = .error .malformedKnowledge)
    ∧ (d.brand = some b → b.name = some n →
        load_brand_data (some d) =
          .ok { brand := b, products := d.products.getD [],
                faqs := d.faqs.getD [],
                mechanism := d.mechanism.getD { microbes := [] } }) := by
  intro d b n
  refine ⟨rfl, ?_, ?_, ?_⟩
  · intro h; simp [load_brand_data, h]
  · intro h1 h2; simp [load_brand_data, h1, h2]
  · intro h1 h2; simp [load_brand_data, h1, h2]

/-- Claim C6, witness: the three loader behaviours at concrete sources —
a source whose brand lacks `name` is malformed, and a source with only a
brand name loads with empty defaulted containers. -/
theorem c6_witness :
    load_brand_data (some kbNoName) = .error .malformedKnowledge
    ∧ load_brand_data (some kbBare)
      = .ok { brand := brandB, products := [], faqs := [],
              mechanism := { microbes := [] } } :=
  ⟨(c6_load_validation kbNoName brandNoName "B").2.2.1 rfl rfl,
   (c6_load_validation kbBare brandB "B").2.2.2 rfl rfl⟩

/-- Claim C7 (confirmed): on a fresh `RAGSystem` every search fails with
the index-not-built error; in general that error occurs exactly when
`vectorstore` is still `None`, and a completed build sets `vectorstore`,
after which search does not raise it. -/
theorem c7_search_requires_build :
    ∀ (col query : String) (k : Nat) (mmrDocs : List RagDoc) (st : RAGState)
      (store : ChromaStore) (source : Option RawData) (st2 : RAGState)
      (store2 : ChromaStore),
    search_relevant_context (initState col) query k mmrDocs = .error .indexNotBuilt
    ∧ (search_relevant_context st query k mmrDocs = .error .indexNotBuilt
        ↔ st.vectorstore = none)
    ∧ (build_vectorstore st store source = .ok (st2, store2) →
        st2.vectorstore = some st.collection_name
        ∧ search_relevant_context st2 query k mmrDocs ≠ .error .indexNotBuilt) := by
  intro col query k mmrDocs st store source st2 store2
  refine ⟨rfl, ?_, ?_⟩
  · cases hv : st.vectorstore with
    | none => simp [search_relevant_context, hv]
    | some v => simp [search_relevant_context, hv]
  · intro hb
    unfold build_vectorstore at hb
    split at hb
    · exact absurd hb (by simp)
    · simp only [Except.ok.injEq, Prod.mk.injEq] at hb
      obtain ⟨h1, h2⟩ := hb
      subst h1
      exact ⟨rfl, by simp [search_relevant_context]⟩

/-- Claim C7, witness: a concrete search before any build fails with
`indexNotBuilt`, and after a concrete successful build it does not. -/
theorem c7_witness :
    search_relevant_context (initState "brand_kb") "refund policy" 4 []
      = .error .indexNotBuilt
    ∧ (build_vectorstore (initState "brand_kb") [] (some kbOld) =
        .ok (stateOf (build_vectorstore (initState "brand_kb") [] (some kbOld)),
             storeOf (build_vectorstore (initState "brand_kb") [] (some kbOld))))
    ∧ ((stateOf (build_vectorstore (initState "brand_kb") [] (some kbOld))).vectorstore
        = some "brand_kb"
       ∧ search_relevant_context
           (stateOf (build_vectorstore (initState "brand_kb") [] (some kbOld)))
           "refund policy" 4 [] ≠ .error .indexNotBuilt) :=
  ⟨(c7_search_requires_build "brand_kb" "refund policy" 4 [] (initState "brand_kb")
      [] (some kbOld)
      (stateOf (build_vectorstore (initState "brand_kb") [] (some kbOld)))
      (storeOf (build_vectorstore (initState "brand_kb") [] (some kbOld)))).1,
   rfl,
   (c7_search_requires_build "brand_kb" "refund policy" 4 [] (initState "brand_kb")
      [] (some kbOld)
      (stateOf (build_vectorstore (initState "brand_kb") [] (some kbOld)))
      (storeOf (build_vectorstore (initState "brand_kb") [] (some kbOld)))).2.2 rfl⟩

/-- The de-duplication loop keeps a subsequence of its input. -/
theorem dedupFirstAux_sublist :
    ∀ (ds : List RagDoc) (seen : List String),
    (dedupFirstAux seen ds).Sublist ds := by
  intro ds
  induction ds with
  | nil => intro seen; simp [dedupFirstAux]
  | cons d ds ih =>
    intro seen
    simp only [dedupFirstAux]
    by_cases h : d.page_content ∈ seen
    · rw [if_pos h]
      exact (ih seen).trans (List.sublist_cons_self _ _)
    · rw [if_neg h]
      exact (ih _).cons₂ _

/-- No kept document's text was already in `seen`. -/
theorem dedupFirstAux_not_seen :
    ∀ (ds : List RagDoc) (seen : List String) (d : RagDoc),
    d ∈ dedupFirstAux seen ds → d.page_content ∉ seen := by
  intro ds
  induction ds with
  | nil => intro seen d h; simp [dedupFirstAux] at h
  | cons a ds ih =>
    intro seen d h
    simp only [dedupFirstAux] at h
    by_cases ha : a.page_content ∈ seen
    · rw [if_pos ha] at h; exact ih seen d h
    · rw [if_neg ha] at h
      rcases List.mem_cons.mp h with rfl | h2
      · exact ha
      · intro hc
        exact ih _ d h2 (List.mem_cons_of_mem _ hc)

/-- The kept texts are pairwise distinct. -/
theorem dedupFirstAux_nodup :
    ∀ (ds : List RagDoc) (seen : List String),
    ((dedupFirstAux seen ds).map RagDoc.page_content).Nodup := by
  intro ds
  induction ds with
  | nil => intro seen; simp [dedupFirstAux]
  | cons a ds ih =>
    intro seen
    simp only [dedupFirstAux]
    by_cases ha : a.page_content ∈ seen
    · rw [if_pos ha]; exact ih seen
    · rw [if_neg ha]
      simp only [List.map_cons, List.nodup_cons]
      refine ⟨?_, ih _⟩
      intro hmem
      obtain ⟨d, hd, he⟩ := List.mem_map.mp hmem
      exact dedupFirstAux_not_seen ds _ d hd
        (by rw [he]; exact List.mem_cons_self _ _)

/-- Every kept document is the first element of the input that carries its
text, among those whose text is not in `seen`. -/
theorem dedupFirstAux_first_occ :
    ∀ (ds : List RagDoc) (seen : List String) (d : RagDoc),
    d ∈ dedupFirstAux seen ds →
    ∃ l1 l2, ds = l1 ++ d :: l2
      ∧ ∀ e ∈ l1, e.page_content ∈ seen ∨ e.page_content ≠ d.page_content := by
  intro ds
  induction ds with
  | nil => intro seen d h; simp [dedupFirstAux] at h
  | cons a ds ih =>
    intro seen d h
    simp only [dedupFirstAux] at h
    by_cases ha : a.page_content ∈ seen
    · rw [if_pos ha] at h
      obtain ⟨l1, l2, hds, hcond⟩ := ih seen d h
      refine ⟨a :: l1, l2, by rw [hds]; rfl, ?_⟩
      intro e he
      rcases List.mem_cons.mp he with rfl | he2
      · exact Or.inl ha
      · exact hcond e he2
    · rw [if_neg ha] at h
      rcases List.mem_cons.mp h with rfl | h2
      · exact ⟨[], ds, rfl, by simp⟩
      · obtain ⟨l1, l2, hds, hcond⟩ := ih _ d h2
        have hdns := dedupFirstAux_not_seen ds _ d h2
        have hne : d.page_content ≠ a.page_content := by
          intro hc
          exact hdns (by rw [hc]; exact List.mem_cons_self _ _)
        refine ⟨a :: l1, l2, by rw [hds]; rfl, ?_⟩
        intro e he
        rcases List.mem_cons.mp he with rfl | he2
        · exact Or.inr (Ne.symm hne)
        · rcases hcond e he2 with hin | hne2
          · rcases List.mem_cons.mp hin with heq | hin2
            · exact Or.inr (by rw [heq]; exact Ne.symm hne)
            · exact Or.inl hin2
          · exact Or.inr hne2

/-- Claim C2 (confirmed): on a built index, when the external MMR selection
returns at most `k` documents, search returns the context assembled from
the de-duplicated list, which holds at most `k` documents, has pairwise
distinct texts, is a subsequence of the MMR selection (so the surviving
documents keep its order), and keeps exactly the first occurrence of each
surviving text. -/
theorem c2_search_dedup :
    ∀ (st : RAGState) (query : String) (k : Nat) (mmrDocs : List RagDoc),
    st.vectorstore.isSome = true → mmrDocs.length ≤ k →
    search_relevant_context st query k mmrDocs =
        .ok (assembleContext (dedupFirst mmrDocs))
    ∧ (dedupFirst mmrDocs).length ≤ k
    ∧ ((dedupFirst mmrDocs).map RagDoc.page_content).Nodup
    ∧ (dedupFirst mmrDocs).Sublist mmrDocs
    ∧ ∀ d ∈ dedupFirst mmrDocs,
        ∃ l1 l2, mmrDocs = l1 ++ d :: l2
          ∧ ∀ e ∈ l1, e.page_content ≠ d.page_content := by
  intro st query k mmrDocs h1 h2
  obtain ⟨v, hv⟩ := Option.isSome_iff_exists.mp h1
  refine ⟨by simp [search_relevant_context, hv],
    le_trans (dedupFirstAux_sublist mmrDocs []).length_le h2,
    dedupFirstAux_nodup mmrDocs [],
    dedupFirstAux_sublist mmrDocs [],
    ?_⟩
  intro d hd
  obtain ⟨l1, l2, hds, hcond⟩ := dedupFirstAux_first_occ mmrDocs [] d hd
  exact ⟨l1, l2, hds, fun e he => (hcond e he).resolve_left (by simp)⟩

/-- Claim C2, witness: the search/de-duplication theorem evaluated at a
concrete built state and a 3-document MMR result with a duplicate text. -/
theorem c2_witness :
    builtState.vectorstore.isSome = true
    ∧ mmrSample.length ≤ 3
    ∧ (search_relevant_context builtState "refund policy" 3 mmrSample =
          .ok (assembleContext (dedupFirst mmrSample))
      ∧ (dedupFirst mmrSample).length ≤ 3
      ∧ ((dedupFirst mmrSample).map RagDoc.page_content).Nodup
      ∧ (dedupFirst mmrSample).Sublist mmrSample
      ∧ ∀ d ∈ dedupFirst mmrSample,
          ∃ l1 l2, mmrSample = l1 ++ d :: l2
            ∧ ∀ e ∈ l1, e.page_content ≠ d.page_content) :=
  ⟨rfl, by decide,
   c2_search_dedup builtState "refund policy" 3 mmrSample rfl (by decide)⟩

/-- Claim C8, counterexample to the claim as stated: on a fresh system —
before any load — the summary getter returns the empty string.  Its
embedding `getSummaryDocument` is a pure projection of the cached field
(the Python method reads `self.profile_summary` and nothing else), so no
load is triggered and the result is empty rather than summary text. -/
theorem c8_counterexample :
    getSummaryDocument (initState "brand_kb") = "" := rfl

/-- Claim C8 (corrected): before any build the summary getter returns the
empty string without loading anything; after a successful build it returns
the summary generated from the loaded record, verbatim. -/
theorem c8_summary_cache :
    ∀ (col : String) (st : RAGState) (store : ChromaStore)
      (source : Option RawData) (st2 : RAGState) (store2 : ChromaStore),
    getSummaryDocument (initState col) = ""
    ∧ (build_vectorstore st store source = .ok (st2, store2) →
        ∃ data, load_brand_data source = .ok data
          ∧ getSummaryDocument st2 = generateSummaryText data) := by
  intro col st store source st2 store2
  refine ⟨rfl, ?_⟩
  intro hb
  unfold build_vectorstore at hb
  split at hb
  · exact absurd hb (by simp)
  · rename_i data hl
    simp only [Except.ok.injEq, Prod.mk.injEq] at hb
    obtain ⟨h1, h2⟩ := hb
    subst h1
    exact ⟨data, hl, rfl⟩

/-- Claim C8, witness: the summary cache behaviour at a concrete build. -/
theorem c8_witness :
    getSummaryDocument (initState "brand_kb") = ""
    ∧ ∃ data, load_brand_data (some kbOld) = .ok data
        ∧ getSummaryDocument
            (stateOf (build_vectorstore (initState "brand_kb") [] (some kbOld)))
          = generateSummaryText data :=
  ⟨(c8_summary_cache "brand_kb" (initState "brand_kb") [] (some kbOld)
      (stateOf (build_vectorstore (initState "brand_kb") [] (some kbOld)))
      (storeOf (build_vectorstore (initState "brand_kb") [] (some kbOld)))).1,
   (c8_summary_cache "brand_kb" (initState "brand_kb") [] (some kbOld)
      (stateOf (build_vectorstore (initState "brand_kb") [] (some kbOld)))
      (storeOf (build_vectorstore (initState "brand_kb") [] (some kbOld)))).2 rfl⟩

/-- Writing documents into a collection appends them to whatever the
collection already held. -/
theorem queryableDocs_chromaFromDocuments_self :
    ∀ (store : ChromaStore) (col : String) (docs : List RagDoc),
    queryableDocs (chromaFromDocuments store col docs) col =
      queryableDocs store col ++ docs := by
  intro store
  induction store with
  | nil => intro col docs; simp [chromaFromDocuments, queryableDocs]
  | cons e rest ih =>
    intro col docs
    obtain ⟨c, ds⟩ := e
    by_cases h : c = col
    · simp [chromaFromDocuments, queryableDocs, h]
    · simp [chromaFromDocuments, queryableDocs, h, ih]

/-- Writing documents into a collection leaves other collections as they
were. -/
theorem queryableDocs_chromaFromDocuments_other :
    ∀ (store : ChromaStore) (col docs_col : String) (docs : List RagDoc),
    docs_col ≠ col →
    queryableDocs (chromaFromDocuments store col docs) docs_col =
      queryableDocs store docs_col := by
  intro store
  induction store with
  | nil =>
    intro col docs_col docs hne
    simp [chromaFromDocuments, queryableDocs, Ne.symm hne]
  | cons e rest ih =>
    intro col docs_col docs hne
    obtain ⟨c, ds⟩ := e
    by_cases h : c = col
    · subst h
      simp [chromaFromDocuments, queryableDocs, Ne.symm hne]
    · simp only [chromaFromDocuments, if_neg h]
      by_cases h2 : c = docs_col
      · subst h2
        simp [queryableDocs]
      · simp [queryableDocs, h2, ih _ _ _ hne]

/-- Claim C3 (corrected): a successful (re)build appends the new record's
documents to the named collection; every document queryable before the
rebuild is still queryable after it, so rebuilds are additive, not
replacing. -/
theorem c3_rebuild_additive :
    ∀ (st : RAGState) (store : ChromaStore) (source : Option RawData)
      (st2 : RAGState) (store2 : ChromaStore),
    build_vectorstore st store source = .ok (st2, store2) →
    (∃ data, load_brand_data source = .ok data
      ∧ queryableDocs store2 st.collection_name =
          queryableDocs store st.collection_name ++ createDocumentsFromBrand data)
    ∧ ∀ d, d ∈ queryableDocs store st.collection_name →
        d ∈ queryableDocs store2 st.collection_name := by
  intro st store source st2 store2 hb
  unfold build_vectorstore at hb
  split at hb
  · exact absurd hb (by simp)
  · rename_i data hl
    simp only [Except.ok.injEq, Prod.mk.injEq] at hb
    obtain ⟨h1, h2⟩ := hb
    subst h2
    refine ⟨⟨data, hl, queryableDocs_chromaFromDocuments_self store _ _⟩, ?_⟩
    intro d hd
    rw [queryableDocs_chromaFromDocuments_self store _ _]
    exact List.mem_append_left _ hd

/-- Claim C3, counterexample to the claim as stated: build the `brand_kb`
collection from one record, then rebuild the same collection from a
different record (as the rebuild endpoint does, with a fresh `RAGSystem`
over the same persistent store); the first record's FAQ document is still
queryable afterward. -/
theorem c3_counterexample :
    buildOk (build_vectorstore (initState "brand_kb") [] (some kbOld)) = true
    ∧ buildOk (build_vectorstore (initState "brand_kb")
        (storeOf (build_vectorstore (initState "brand_kb") [] (some kbOld)))
        (some kbNew)) = true
    ∧ ({ page_content := "Q: old?\nA: old.", metadata := RagMeta.faq 1 } : RagDoc)
        ∈ queryableDocs
            (storeOf (build_vectorstore (initState "brand_kb")
              (storeOf (build_vectorstore (initState "brand_kb") [] (some kbOld)))
              (some kbNew)))
            "brand_kb" := by
  refine ⟨rfl, rfl, ?_⟩
  decide

/-- Claim C3, witness: the additive-rebuild theorem evaluated at the
concrete rebuild of `brand_kb` from `kbOld` to `kbNew`. -/
theorem c3_witness :
    build_vectorstore (initState "brand_kb")
        (storeOf (build_vectorstore (initState "brand_kb") [] (some kbOld)))
        (some kbNew)
      = .ok (stateOf (build_vectorstore (initState "brand_kb")
               (storeOf (build_vectorstore (initState "brand_kb") [] (some kbOld)))
               (some kbNew)),
             storeOf (build_vectorstore (initState "brand_kb")
               (storeOf (build_vectorstore (initState "brand_kb") [] (some kbOld)))
               (some kbNew)))
    ∧ ((∃ data, load_brand_data (some kbNew) = .ok data
        ∧ queryableDocs
            (storeOf (build_vectorstore (initState "brand_kb")
              (storeOf (build_vectorstore (initState "brand_kb") [] (some kbOld)))
              (some kbNew)))
            (initState "brand_kb").collection_name =
          queryableDocs
            (storeOf (build_vectorstore (initState "brand_kb") [] (some kbOld)))
            (initState "brand_kb").collection_name
            ++ createDocumentsFromBrand data)
      ∧ ∀ d, d ∈ queryableDocs
            (storeOf (build_vectorstore (initState "brand_kb") [] (some kbOld)))
            (initState "brand_kb").collection_name →
          d ∈ queryableDocs
            (storeOf (build_vectorstore (initState "brand_kb")
              (storeOf (build_vectorstore (initState "brand_kb") [] (some kbOld)))
              (some kbNew)))
            (initState "brand_kb").collection_name) :=
  ⟨rfl,
   c3_rebuild_additive (initState "brand_kb")
     (storeOf (build_vectorstore (initState "brand_kb") [] (some kbOld)))
     (some kbNew)
     (stateOf (build_vectorstore (initState "brand_kb")
       (storeOf (build_vectorstore (initState "brand_kb") [] (some kbOld)))
       (some kbNew)))
     (storeOf (build_vectorstore (initState "brand_kb")
       (storeOf (build_vectorstore (initState "brand_kb") [] (some kbOld)))
       (some kbNew)))
     rfl⟩

/-- Every document a single FAQ entry emits carries that entry's index as
its `id` metadata. -/
theorem faqDocsForOne_metadata :
    ∀ (i : Nat) (f : FaqEntry) (d : RagDoc),
    d ∈ faqDocsForOne i f → d.metadata = RagMeta.faq i := by
  intro i f d h
  unfold faqDocsForOne at h
  split at h
  · simp at h
  · obtain ⟨c, hc, rfl⟩ := List.mem_map.mp h
    rfl

/-- Every document the FAQ loop starting at index `i` emits comes from the
entry at offset `l1.length` of the list, processed with index
`i + l1.length`. -/
theorem faqDocsAux_mem_split :
    ∀ (fs : List FaqEntry) (i : Nat) (d : RagDoc),
    d ∈ faqDocsAux i fs →
    ∃ l1 f l2, fs = l1 ++ f :: l2 ∧ d ∈ faqDocsForOne (i + l1.length) f := by
  intro fs
  induction fs with
  | nil => intro i d h; simp [faqDocsAux] at h
  | cons a fs ih =>
    intro i d h
    simp only [faqDocsAux, List.mem_append] at h
    rcases h with h1 | h2
    · exact ⟨[], a, fs, rfl, by simpa using h1⟩
    · obtain ⟨l1, f, l2, hfs, hd⟩ := ih (i + 1) d h2
      refine ⟨a :: l1, f, l2, by rw [hfs]; rfl, ?_⟩
      have harith : i + (a :: l1).length = i + 1 + l1.length := by
        simp only [List.length_cons]; omega
      rw [harith]
      exact hd

/-- Claim C9 (confirmed): every document `faqDocs` emits comes from the FAQ
entry at some 0-based offset `l1.length` of the source list — counting
skipped empty entries — and its `id` metadata is exactly `1 + l1.length`,
the entry's 1-based position; ids of emitted documents therefore need not
be consecutive. -/
theorem c9_faq_ids :
    ∀ (fs : List FaqEntry) (d : RagDoc),
    d ∈ faqDocs fs →
    ∃ l1 f l2, fs = l1 ++ f :: l2
      ∧ d ∈ faqDocsForOne (1 + l1.length) f
      ∧ d.metadata = RagMeta.faq (1 + l1.length) := by
  intro fs d h
  obtain ⟨l1, f, l2, hfs, hd⟩ := faqDocsAux_mem_split fs 1 d h
  exact ⟨l1, f, l2, hfs, hd, faqDocsForOne_metadata _ _ _ hd⟩

/-- Claim C9, witness: with the first FAQ empty and skipped, the emitted
document carries id 2 — its position counting the skipped entry. -/
theorem c9_witness :
    ({ page_content := "Q: X\nA: Y", metadata := RagMeta.faq 2 } : RagDoc)
        ∈ faqDocs faqsWithSkip
    ∧ ∃ l1 f l2, faqsWithSkip = l1 ++ f :: l2
        ∧ ({ page_content := "Q: X\nA: Y", metadata := RagMeta.faq 2 } : RagDoc)
            ∈ faqDocsForOne (1 + l1.length) f
        ∧ ({ page_content := "Q: X\nA: Y", metadata := RagMeta.faq 2 } : RagDoc).metadata
            = RagMeta.faq (1 + l1.length) :=
  ⟨by decide, c9_faq_ids faqsWithSkip _ (by decide)⟩

/-- The head of `dropWhile p` never satisfies `p`. -/
theorem head?_dropWhile_not :
    ∀ (p : Char → Bool) (l : List Char) (c : Char),
    (l.dropWhile p).head? = some c → p c = false := by
  intro p l
  induction l with
  | nil => intro c h; simp [List.dropWhile] at h
  | cons a l ih =>
    intro c h
    rw [List.dropWhile_cons] at h
    by_cases hp : p a
    · rw [if_pos hp] at h
      exact ih c h
    · rw [if_neg hp] at h
      rw [List.head?_cons] at h
      injection h with h
      subst h
      exact Bool.eq_false_iff.mpr hp

/-- When `dropWhile` keeps anything, it keeps the last element. -/
theorem getLast?_dropWhile_of_ne_nil :
    ∀ (p : Char → Bool) (l : List Char),
    l.dropWhile p ≠ [] → (l.dropWhile p).getLast? = l.getLast? := by
  intro p l
  induction l with
  | nil => intro h; simp [List.dropWhile] at h
  | cons a l ih =>
    intro h
    rw [List.dropWhile_cons] at h ⊢
    by_cases hp : p a
    · rw [if_pos hp] at h ⊢
      cases l with
      | nil => simp [List.dropWhile] at h
      | cons b l2 =>
        rw [ih h, List.getLast?_cons_cons]
    · rw [if_neg hp]

/-- The first character of a stripped string is never whitespace. -/
theorem stripChars_head? :
    ∀ (l : List Char) (c : Char),
    (stripChars l).head? = some c → isPySpace c = false := by
  intro l c h
  unfold stripChars at h
  rw [List.head?_reverse] at h
  have hne : List.dropWhile isPySpace (List.dropWhile isPySpace l).reverse ≠ [] := by
    intro hnil
    rw [hnil] at h
    simp at h
  rw [getLast?_dropWhile_of_ne_nil _ _ hne, List.getLast?_reverse] at h
  exact head?_dropWhile_not _ _ _ h

/-- The last character of a stripped string is never whitespace. -/
theorem stripChars_getLast? :
    ∀ (l : List Char) (c : Char),
    (stripChars l).getLast? = some c → isPySpace c = false := by
  intro l c h
  unfold stripChars at h
  rw [List.getLast?_reverse] at h
  exact head?_dropWhile_not _ _ _ h

/-- Stripping an all-whitespace string leaves nothing. -/
theorem stripChars_all_space :
    ∀ (l : List Char), (∀ c ∈ l, isPySpace c = true) → stripChars l = [] := by
  intro l h
  unfold stripChars
  rw [List.dropWhile_eq_nil_iff.mpr h]
  rfl

/-- Claim C10 (confirmed): the FAQ fields are stripped before the emptiness
check and before formatting — an FAQ whose question and answer are both
whitespace-only emits no document, and when a document is emitted its text
is formatted from the stripped fields, whose first and last characters are
never whitespace. -/
theorem c10_faq_strip :
    ∀ (i : Nat) (q a : String) (rest : List FaqEntry),
    ((∀ c ∈ q.data, isPySpace c = true) → (∀ c ∈ a.data, isPySpace c = true) →
      faqDocsAux i ({ q := some q, a := some a } :: rest) = faqDocsAux (i + 1) rest)
    ∧ (∀ c, (pyStrip q).data.head? = some c → isPySpace c = false)
    ∧ (∀ c, (pyStrip q).data.getLast? = some c → isPySpace c = false)
    ∧ (∀ c, (pyStrip a).data.head? = some c → isPySpace c = false)
    ∧ (∀ c, (pyStrip a).data.getLast? = some c → isPySpace c = false)
    ∧ (¬(pyStrip q = "" ∧ pyStrip a = "") →
      faqDocsAux i ({ q := some q, a := some a } :: rest) =
        (maybeSplit ("Q: " ++ pyStrip q ++ "\nA: " ++ pyStrip a)).map
          (fun chunk => { page_content := chunk, metadata := RagMeta.faq i })
        ++ faqDocsAux (i + 1) rest) := by
  intro i q a rest
  refine ⟨?_, ?_, ?_, ?_, ?_, ?_⟩
  · intro hq ha
    have hq2 : pyStrip q = "" := by
      unfold pyStrip
      rw [stripChars_all_space q.data hq]
    have ha2 : pyStrip a = "" := by
      unfold pyStrip
      rw [stripChars_all_space a.data ha]
    simp [faqDocsAux, faqDocsForOne, hq2, ha2]
  · intro c h; exact stripChars_head? q.data c h
  · intro c h; exact stripChars_getLast? q.data c h
  · intro c h; exact stripChars_head? a.data c h
  · intro c h; exact stripChars_getLast? a.data c h
  · intro h
    simp only [faqDocsAux]
    congr 1
    unfold faqDocsForOne
    rw [if_neg]
    · rfl
    · exact h

/-- Claim C10, witness: a whitespace-only FAQ emits nothing, and a padded
FAQ's documents are built from the stripped fields. -/
theorem c10_witness :
    faqDocsAux 1 [{ q := some " ", a := some "\t" }] = faqDocsAux 2 []
    ∧ faqDocsAux 1 [{ q := some " x ", a := some "y " }] =
        (maybeSplit ("Q: " ++ pyStrip " x " ++ "\nA: " ++ pyStrip "y ")).map
          (fun chunk => { page_content := chunk, metadata := RagMeta.faq 1 })
        ++ faqDocsAux 2 [] :=
  ⟨(c10_faq_strip 1 " " "\t" []).1 (by decide) (by decide),
   (c10_faq_strip 1 " x " "y " []).2.2.2.2.2 (by decide)⟩

/-- The modelled splitter always yields at least one chunk. -/
theorem chunkFrom_ne_nil : ∀ (l : List Char), chunkFrom l ≠ [] := by
  intro l
  unfold chunkFrom
  split <;> simp

/-- Every chunk of the modelled splitter has at most 1000 characters
(strong induction on a length bound). -/
theorem chunkFrom_chunk_le_bound :
    ∀ (n : Nat) (l : List Char), l.length ≤ n →
    ∀ c ∈ chunkFrom l, c.length ≤ 1000 := by
  intro n
  induction n with
  | zero =>
    intro l hl c hc
    have h : l.length ≤ 1000 := by omega
    unfold chunkFrom at hc
    rw [dif_pos h] at hc
    simp only [List.mem_singleton] at hc
    subst hc
    exact h
  | succ n ih =>
    intro l hl c hc
    by_cases h : l.length ≤ 1000
    · unfold chunkFrom at hc
      rw [dif_pos h] at hc
      simp only [List.mem_singleton] at hc
      subst hc
      exact h
    · unfold chunkFrom at hc
      rw [dif_neg h] at hc
      rcases List.mem_cons.mp hc with rfl | hc2
      · rw [List.length_take]
        exact min_le_left _ _
      · exact ih (l.drop 850) (by simp only [List.length_drop]; omega) c hc2

/-- Every chunk of the modelled splitter has at most 1000 characters. -/
theorem chunkFrom_chunk_le :
    ∀ (l : List Char), ∀ c ∈ chunkFrom l, c.length ≤ 1000 := by
  intro l
  exact chunkFrom_chunk_le_bound l.length l le_rfl

/-- Past the threshold the modelled splitter yields at least two chunks. -/
theorem chunkFrom_two :
    ∀ (l : List Char), 1000 < l.length → 2 ≤ (chunkFrom l).length := by
  intro l h
  unfold chunkFrom
  rw [dif_neg (by omega)]
  simp only [List.length_cons]
  have hpos : 0 < (chunkFrom (l.drop 850)).length :=
    List.length_pos.mpr (chunkFrom_ne_nil _)
  omega

/-- Every document a product entry emits carries its crop metadata. -/
theorem productDocs_metadata :
    ∀ (p : Product) (d : RagDoc), d ∈ productDocs p →
    d.metadata = RagMeta.product (p.crop.getD "N/A") := by
  intro p d h
  unfold productDocs at h
  obtain ⟨c, hc, rfl⟩ := List.mem_map.mp h
  rfl

/-- Every document the mechanism block emits is a mechanism document. -/
theorem mechanismDocs_metadata :
    ∀ (m : Mechanism) (d : RagDoc), d ∈ mechanismDocs m →
    d.metadata = RagMeta.mechanism := by
  intro m d h
  unfold mechanismDocs at h
  split at h
  · obtain ⟨c, hc, rfl⟩ := List.mem_map.mp h
    rfl
  · simp at h

/-- Every FAQ-loop document is a faq document. -/
theorem faqDocs_metadata :
    ∀ (fs : List FaqEntry) (d : RagDoc), d ∈ faqDocs fs →
    ∃ i, d.metadata = RagMeta.faq i := by
  intro fs d h
  obtain ⟨l1, f, l2, _, hd⟩ := faqDocsAux_mem_split fs 1 d h
  exact ⟨_, faqDocsForOne_metadata _ _ _ hd⟩

/-- Claim C4 (corrected): the decomposer emits exactly one `brand_overview`
document holding the full overview text unsplit, whatever its length;
every other candidate text goes through `_maybe_split`, which leaves
nonempty text of at most 1000 characters as one unchanged document and
splits longer text into at least two sub-chunks of at most 1000 characters
each; every sub-chunk inherits its parent's type and metadata. -/
theorem c4_split_policy :
    ∀ (data : BrandData) (t : String),
    (createDocumentsFromBrand data).filter
        (fun d => d.metadata == RagMeta.brandOverview)
      = [{ page_content := overviewText data.brand, metadata := RagMeta.brandOverview }]
    ∧ (1000 < t.length →
        2 ≤ (maybeSplit t).length ∧ ∀ c ∈ maybeSplit t, c.length ≤ 1000)
    ∧ (t ≠ "" → t.length ≤ 1000 → maybeSplit t = [t])
    ∧ (∀ (p : Product) (d : RagDoc), d ∈ productDocs p →
        d.metadata = RagMeta.product (p.crop.getD "N/A"))
    ∧ (∀ (i : Nat) (f : FaqEntry) (d : RagDoc), d ∈ faqDocsForOne i f →
        d.metadata = RagMeta.faq i)
    ∧ (∀ (m : Mechanism) (d : RagDoc), d ∈ mechanismDocs m →
        d.metadata = RagMeta.mechanism) := by
  intro data t
  refine ⟨?_, ?_, ?_, productDocs_metadata, faqDocsForOne_metadata,
    mechanismDocs_metadata⟩
  · unfold createDocumentsFromBrand
    rw [List.filter_append, List.filter_append, List.filter_append]
    have h2 : (mechanismDocs data.mechanism).filter
        (fun d => d.metadata == RagMeta.brandOverview) = [] := by
      rw [List.filter_eq_nil_iff]
      intro d hd
      rw [mechanismDocs_metadata _ _ hd]
      simp
    have h3 : ((data.products.map productDocs).flatten).filter
        (fun d => d.metadata == RagMeta.brandOverview) = [] := by
      rw [List.filter_eq_nil_iff]
      intro d hd
      obtain ⟨l, hl, hdl⟩ := List.mem_flatten.mp hd
      obtain ⟨p, _, rfl⟩ := List.mem_map.mp hl
      rw [productDocs_metadata _ _ hdl]
      simp
    have h4 : (faqDocs data.faqs).filter
        (fun d => d.metadata == RagMeta.brandOverview) = [] := by
      rw [List.filter_eq_nil_iff]
      intro d hd
      obtain ⟨i, hi⟩ := faqDocs_metadata _ _ hd
      rw [hi]
      simp
    rw [h2, h3, h4]
    simp [List.filter]
  · intro h
    have ht : t ≠ "" := by
      intro he
      subst he
      exact absurd h (by decide)
    have hgt : ¬ t.length ≤ 1000 := by omega
    unfold maybeSplit
    rw [if_neg ht, if_neg hgt]
    constructor
    · unfold splitText
      rw [List.length_map]
      exact chunkFrom_two t.data h
    · intro c hc
      obtain ⟨l, hl, rfl⟩ := List.mem_map.mp hc
      exact chunkFrom_chunk_le t.data l hl
  · intro h1 h2
    unfold maybeSplit
    rw [if_neg h1, if_pos h2]

set_option maxRecDepth 40000 in
/-- Claim C4, counterexample to the claim as stated: a record whose brand
description has 1001 characters decomposes into exactly one document — the
brand-overview document, unsplit, with more than 1000 characters — because
`_create_documents_from_brand` never passes the overview text through
`_maybe_split`. -/
theorem c4_counterexample :
    createDocumentsFromBrand bigData =
      [{ page_content := overviewText bigData.brand,
         metadata := RagMeta.brandOverview }]
    ∧ 1000 < (overviewText bigData.brand).length := by
  refine ⟨rfl, ?_⟩
  decide

set_option maxRecDepth 40000 in
/-- Claim C4, witness: the splitting bounds evaluated at the concrete
1001-character text. -/
theorem c4_witness :
    1000 < bigDesc.length
    ∧ (2 ≤ (maybeSplit bigDesc).length
        ∧ ∀ c ∈ maybeSplit bigDesc, c.length ≤ 1000) := by
  have h : 1000 < bigDesc.length := by decide
  exact ⟨h, (c4_split_policy bigData bigDesc).2.1 h⟩

end RagSys
